import Mathlib

/-!
Shallow embedding of the Rock-Paper-Scissors-Plus core
(`game_state.py` and the tool layer of `referee_agent.py`).

String normalisation (`str.lower().strip()` in Python) is modelled on the
ASCII fragment: `pyLowerChar` maps the letters A-Z to a-z and fixes every
other character, `isPySpace` recognises the six ASCII whitespace
characters stripped by `str.strip()`.  All move names and all inputs in
the specification are ASCII, so this fragment is the one exercised.
Python exceptions (the `KeyError` a lookup in `winning_moves` would raise,
and the unreachable arm of `validate_move`) are modelled by `Option`:
`none` is a raised exception.  The random choice of the bot is modelled by
two oracle parameters: `chance` (whether `random.random() < 0.15` fired)
and `idx` (which element of the candidate list `random.choice` picked).
-/

/-- Valid game moves (`Move` in `game_state.py`). -/
inductive Move where
  | rock
  | paper
  | scissors
  | bomb
deriving DecidableEq, Repr

/-- Possible round outcomes (`RoundResult` in `game_state.py`). -/
inductive RoundResult where
  | user_win
  | bot_win
  | draw
  | invalid
deriving DecidableEq, Repr

/-- One entry of `rounds_history` as appended by `play_round_tool`. -/
structure RoundRecord where
  round : Nat
  user_move : Move
  bot_move : Move
  result : RoundResult
deriving DecidableEq, Repr

/-- The mutable game state (`GameState` in `game_state.py`). -/
structure GameState where
  round_number : Nat
  user_score : Nat
  bot_score : Nat
  user_bomb_used : Bool
  bot_bomb_used : Bool
  game_over : Bool
  rounds_history : List RoundRecord
deriving DecidableEq, Repr

/-- A fresh `GameState()`: all dataclass defaults, `__post_init__` puts an
empty history in place. -/
def GameState.init : GameState :=
  { round_number := 0
    user_score := 0
    bot_score := 0
    user_bomb_used := false
    bot_bomb_used := false
    game_over := false
    rounds_history := [] }

/-- ASCII fragment of Python `str.lower` applied to one character:
A-Z (codes 65-90) map to a-z, everything else is fixed. -/
def pyLowerChar (c : Char) : Char :=
  match c with
  | 'A' => 'a' | 'B' => 'b' | 'C' => 'c' | 'D' => 'd' | 'E' => 'e'
  | 'F' => 'f' | 'G' => 'g' | 'H' => 'h' | 'I' => 'i' | 'J' => 'j'
  | 'K' => 'k' | 'L' => 'l' | 'M' => 'm' | 'N' => 'n' | 'O' => 'o'
  | 'P' => 'p' | 'Q' => 'q' | 'R' => 'r' | 'S' => 's' | 'T' => 't'
  | 'U' => 'u' | 'V' => 'v' | 'W' => 'w' | 'X' => 'x' | 'Y' => 'y'
  | 'Z' => 'z'
  | other => other

/-- ASCII fragment of Python `str.upper` applied to one character. -/
def pyUpperChar (c : Char) : Char :=
  match c with
  | 'a' => 'A' | 'b' => 'B' | 'c' => 'C' | 'd' => 'D' | 'e' => 'E'
  | 'f' => 'F' | 'g' => 'G' | 'h' => 'H' | 'i' => 'I' | 'j' => 'J'
  | 'k' => 'K' | 'l' => 'L' | 'm' => 'M' | 'n' => 'N' | 'o' => 'O'
  | 'p' => 'P' | 'q' => 'Q' | 'r' => 'R' | 's' => 'S' | 't' => 'T'
  | 'u' => 'U' | 'v' => 'V' | 'w' => 'W' | 'x' => 'X' | 'y' => 'Y'
  | 'z' => 'Z'
  | other => other

/-- The six ASCII whitespace characters removed by Python `str.strip()`. -/
def isPySpace (c : Char) : Bool :=
  c == ' ' || c == '\t' || c == '\n' || c == '\x0b' || c == '\x0c' || c == '\r'

/-- Python `str.strip()` on the character list: whitespace removed from
both ends. -/
def pyStripList (l : List Char) : List Char :=
  ((l.dropWhile isPySpace).reverse.dropWhile isPySpace).reverse

/-- Python `s.strip()`. -/
def pyStrip (s : String) : String :=
  ⟨pyStripList s.data⟩

/-- Python `s.lower()` (ASCII fragment). -/
def pyLower (s : String) : String :=
  ⟨s.data.map pyLowerChar⟩

/-- Python `s.upper()` (ASCII fragment). -/
def pyUpper (s : String) : String :=
  ⟨s.data.map pyUpperChar⟩

/-- The `Move(move_lower)` enum constructor call: matches the normalised
string against the four enum values, `none` is the `ValueError` branch. -/
def parseMoveStr (s : String) : Option Move :=
  if s = "rock" then some Move.rock
  else if s = "paper" then some Move.paper
  else if s = "scissors" then some Move.scissors
  else if s = "bomb" then some Move.bomb
  else none

/-- The parsing stage of `GameLogic.validate_move`: normalise with
`move.lower().strip()` and match against the `Move` enum. -/
def parseMove (s : String) : Option Move :=
  parseMoveStr (pyStrip (pyLower s))

namespace GameLogic

/-- `GameLogic.validate_move` from `game_state.py`: returns the triple
`(is_valid, move_enum, error_message)`. -/
def validate_move (move : String) (player_bomb_used : Bool) :
    Bool × Option Move × String :=
  match parseMove move with
  | none =>
      (false, none,
        "Invalid move \x27" ++ move ++ "\x27. Valid moves: rock, paper, scissors, bomb")
  | some parsed_move =>
      if parsed_move = Move.bomb && player_bomb_used then
        (false, none, "Bomb has already been used this game")
      else
        (true, some parsed_move, "")

/-- The `winning_moves` dictionary of `GameLogic.resolve_round`: its keys
are only ROCK, SCISSORS and PAPER, so a lookup at BOMB is `none`
(a Python `KeyError`). -/
def winning_moves (m : Move) : Option Move :=
  match m with
  | Move.rock => some Move.scissors
  | Move.scissors => some Move.paper
  | Move.paper => some Move.rock
  | Move.bomb => none

/-- `GameLogic.resolve_round` from `game_state.py`; `none` models a raised
exception (the `KeyError` of a failed dictionary lookup). -/
def resolve_round (user_move bot_move : Move) : Option RoundResult :=
  if user_move = Move.bomb && bot_move = Move.bomb then
    some RoundResult.draw
  else if user_move = Move.bomb then
    some RoundResult.user_win
  else if bot_move = Move.bomb then
    some RoundResult.bot_win
  else if user_move = bot_move then
    some RoundResult.draw
  else
    match winning_moves user_move with
    | none => none
    | some w => some (if w = bot_move then RoundResult.user_win else RoundResult.bot_win)

/-- `GameLogic.determine_game_winner` from `game_state.py`. -/
def determine_game_winner (state : GameState) : String :=
  if state.user_score > state.bot_score then "user"
  else if state.bot_score > state.user_score then "bot"
  else "draw"

end GameLogic

/-- The dictionary returned by one `play_round_tool` call: either the
invalid-move dictionary (`result: "invalid"`, `bot_move: None`, no bomb
flags) or the full round dictionary. -/
inductive RoundOutcome where
  | invalid (round_number : Nat) (error_message : String) (user_move : String)
      (user_score bot_score : Nat) (game_over : Bool)
  | played (round_number : Nat) (result : RoundResult)
      (user_move bot_move : Move) (user_score bot_score : Nat)
      (game_over : Bool) (user_bomb_used bot_bomb_used : Bool)
deriving DecidableEq, Repr

/-- The candidate list built by `play_round_tool`: `[ROCK, PAPER, SCISSORS]`,
with BOMB appended when the bot has a bomb left and the 15-percent draw
(`chance`) fired. -/
def bot_available_moves (bot_bomb_used : Bool) (chance : Bool) : List Move :=
  if !bot_bomb_used && chance then
    [Move.rock, Move.paper, Move.scissors, Move.bomb]
  else
    [Move.rock, Move.paper, Move.scissors]

/-- The `random.choice(available_moves)` call, with the random draw modelled
by the oracle index `idx`: every element of the candidate list is reachable
and nothing outside it is. -/
def bot_choose (bot_bomb_used : Bool) (chance : Bool) (idx : Nat) : Move :=
  let avail := bot_available_moves bot_bomb_used chance
  avail.getD (idx % avail.length) Move.rock

/-- `play_round_tool` from `referee_agent.py`, acting on an explicit state
instead of the module-global one.  The bot randomness is supplied by the
oracles `chance` and `idx`; `none` models a raised exception. -/
def play_round_tool (s : GameState) (user_move : String)
    (chance : Bool) (idx : Nat) : Option (GameState × RoundOutcome) :=
  match GameLogic.validate_move user_move s.user_bomb_used with
  | (false, _, error_msg) =>
      let s1 : GameState := { s with round_number := s.round_number + 1 }
      let s2 : GameState :=
        if s1.round_number ≥ 3 then { s1 with game_over := true } else s1
      some (s2, RoundOutcome.invalid s2.round_number error_msg user_move
        s2.user_score s2.bot_score s2.game_over)
  | (true, none, _) => none
  | (true, some user_move_enum, _) =>
      let bot_move_enum := bot_choose s.bot_bomb_used chance idx
      let s1 : GameState := { s with
        user_bomb_used := if user_move_enum = Move.bomb then true else s.user_bomb_used
        bot_bomb_used := if bot_move_enum = Move.bomb then true else s.bot_bomb_used }
      match GameLogic.resolve_round user_move_enum bot_move_enum with
      | none => none
      | some result =>
          let s2 : GameState :=
            if result = RoundResult.user_win then
              { s1 with user_score := s1.user_score + 1 }
            else if result = RoundResult.bot_win then
              { s1 with bot_score := s1.bot_score + 1 }
            else s1
          let s3 : GameState := { s2 with round_number := s2.round_number + 1 }
          let record : RoundRecord :=
            { round := s3.round_number
              user_move := user_move_enum
              bot_move := bot_move_enum
              result := result }
          let s4 : GameState := { s3 with rounds_history := s3.rounds_history ++ [record] }
          let s5 : GameState :=
            if s4.round_number ≥ 3 then { s4 with game_over := true } else s4
          some (s5, RoundOutcome.played s5.round_number result user_move_enum
            bot_move_enum s5.user_score s5.bot_score s5.game_over
            s5.user_bomb_used s5.bot_bomb_used)

/-- `validate_move_tool` from `referee_agent.py`: a read-only wrapper that
returns the validation triple together with the (unchanged) state snapshot. -/
def validate_move_tool (s : GameState) (move : String) :
    (Bool × Option Move × String) × GameState :=
  (GameLogic.validate_move move s.user_bomb_used, s)

/-- `reset_game_tool` from `referee_agent.py`: replaces the session by a
fresh `GameState()` and returns the confirmation message with the new
state. -/
def reset_game_tool (_s : GameState) : String × GameState :=
  ("Game has been reset", GameState.init)

/-- One oracle-annotated user input to `play_round_tool`: the raw move
string, the bomb-chance draw and the choice index. -/
abbrev RoundInput := String × Bool × Nat

/-- A sequence of `play_round_tool` calls threading the state, collecting
the returned outcome dictionaries; `none` if any call raised. -/
def run_rounds : GameState → List RoundInput → Option (GameState × List RoundOutcome)
  | s, [] => some (s, [])
  | s, (m, c, i) :: rest =>
      match play_round_tool s m c i with
      | none => none
      | some (s', out) =>
          match run_rounds s' rest with
          | none => none
          | some (sf, outs) => some (sf, out :: outs)

/-- Contribution of one outcome to the number of drawn rounds. -/
def outcomeDraws : RoundOutcome → Nat
  | RoundOutcome.played _ RoundResult.draw _ _ _ _ _ _ _ => 1
  | _ => 0

/-- Contribution of one outcome to the number of invalid rounds. -/
def outcomeInvalids : RoundOutcome → Nat
  | RoundOutcome.invalid _ _ _ _ _ _ => 1
  | _ => 0

/-- Number of drawn rounds among the returned outcomes. -/
def drawCount : List RoundOutcome → Nat
  | [] => 0
  | o :: rest => outcomeDraws o + drawCount rest

/-- Number of invalid rounds among the returned outcomes. -/
def invalidCount : List RoundOutcome → Nat
  | [] => 0
  | o :: rest => outcomeInvalids o + invalidCount rest

/-- Round resolution as the specification words it: equal moves draw
(including BOMB against BOMB), otherwise a lone BOMB wins for its side,
otherwise the classic cycle ROCK beats SCISSORS beats PAPER beats ROCK. -/
def resolveSpec (u b : Move) : RoundResult :=
  if u = b then RoundResult.draw
  else if u = Move.bomb then RoundResult.user_win
  else if b = Move.bomb then RoundResult.bot_win
  else if (u = Move.rock ∧ b = Move.scissors) ∨ (u = Move.scissors ∧ b = Move.paper) ∨
      (u = Move.paper ∧ b = Move.rock) then RoundResult.user_win
  else RoundResult.bot_win

lemma isPySpace_pyLowerChar (c : Char) : isPySpace (pyLowerChar c) = isPySpace c := by
  unfold pyLowerChar
  split <;> rfl

lemma dropWhile_map_pyLowerChar (l : List Char) :
    (l.map pyLowerChar).dropWhile isPySpace =
      (l.dropWhile isPySpace).map pyLowerChar := by
  induction l with
  | nil => rfl
  | cons c cs ih =>
      simp only [List.map_cons, List.dropWhile_cons, isPySpace_pyLowerChar]
      by_cases h : isPySpace c
      · simp [h, ih]
      · simp [h]

lemma pyStripList_map_pyLowerChar (l : List Char) :
    pyStripList (l.map pyLowerChar) = (pyStripList l).map pyLowerChar := by
  unfold pyStripList
  rw [dropWhile_map_pyLowerChar, ← List.map_reverse, dropWhile_map_pyLowerChar,
    ← List.map_reverse]

/-- Lowercasing and stripping commute, because lowercasing changes only
letters and letters are never whitespace. -/
lemma pyStrip_pyLower (s : String) : pyStrip (pyLower s) = pyLower (pyStrip s) := by
  cases s with
  | mk data => exact congrArg String.mk (pyStripList_map_pyLowerChar data)

/-- The parsing stage of `validate_move` may equivalently be read as
trim-first, lowercase-second (the order the specification uses). -/
lemma parseMove_eq_spec_order (s : String) :
    parseMove s = parseMoveStr (pyLower (pyStrip s)) := by
  unfold parseMove
  rw [pyStrip_pyLower]

example : GameLogic.resolve_round Move.rock Move.scissors = some RoundResult.user_win := by decide
example : GameLogic.resolve_round Move.bomb Move.bomb = some RoundResult.draw := by decide
example : parseMove " ROCK " = some Move.rock := by decide
example : (GameLogic.validate_move "banana" false).1 = false := by decide
example : GameLogic.validate_move "bomb" true =
    (false, none, "Bomb has already been used this game") := by decide
example : play_round_tool GameState.init "banana" false 0 =
    some (⟨1, 0, 0, false, false, false, []⟩,
      RoundOutcome.invalid 1
        "Invalid move \x27banana\x27. Valid moves: rock, paper, scissors, bomb"
        "banana" 0 0 false) := by decide
example : play_round_tool GameState.init "rock" false 0 =
    some (⟨1, 0, 0, false, false, false, [⟨1, Move.rock, Move.rock, RoundResult.draw⟩]⟩,
      RoundOutcome.played 1 RoundResult.draw Move.rock Move.rock 0 0 false false false) := by
  decide
example : (run_rounds GameState.init
    [("banana", false, 0), ("banana", false, 0), ("banana", false, 0), ("banana", false, 0)]).map
    Prod.fst =
    some ⟨4, 0, 0, false, false, true, []⟩ := by decide

/-- C1: for every pair of moves, `resolve_round` returns DRAW on equal
moves (including BOMB against BOMB), USER_WIN when only the user played
BOMB, BOT_WIN when only the bot played BOMB, and otherwise follows the
cycle ROCK beats SCISSORS beats PAPER beats ROCK, the non-winning,
non-equal side losing. -/
theorem resolve_round_matches_spec (u b : Move) :
    GameLogic.resolve_round u b = some (resolveSpec u b) := by
  cases u <;> cases b <;> decide

/-- C10: `resolve_round` is total and never raises: on each of the 16
move pairs it returns a result, never the INVALID tag, and the
`winning_moves` table (consulted only after the BOMB cases are handled)
is undefined exactly at BOMB. -/
theorem resolve_round_total (u b : Move) :
    (GameLogic.resolve_round u b).isSome = true ∧
    GameLogic.resolve_round u b ≠ some RoundResult.invalid ∧
    (GameLogic.winning_moves u = none ↔ u = Move.bomb) := by
  cases u <;> cases b <;> decide

/-- C7: `determine_game_winner` is a pure function of the two scores only
(two states agreeing on the scores get the same winner, whatever their
other fields, in particular `game_over`), and it returns user, bot or
draw according to the score comparison. -/
theorem determine_game_winner_spec (s t : GameState) :
    (s.user_score = t.user_score → s.bot_score = t.bot_score →
      GameLogic.determine_game_winner s = GameLogic.determine_game_winner t) ∧
    (s.bot_score < s.user_score → GameLogic.determine_game_winner s = "user") ∧
    (s.user_score < s.bot_score → GameLogic.determine_game_winner s = "bot") ∧
    (s.user_score = s.bot_score → GameLogic.determine_game_winner s = "draw") := by
  refine ⟨?_, ?_, ?_, ?_⟩
  · intro h1 h2
    unfold GameLogic.determine_game_winner
    rw [h1, h2]
  · intro h
    have h1 : s.user_score > s.bot_score := h
    simp [GameLogic.determine_game_winner, h1]
  · intro h
    have h1 : ¬ s.user_score > s.bot_score := by omega
    have h2 : s.bot_score > s.user_score := h
    simp [GameLogic.determine_game_winner, h1, h2]
  · intro h
    have h1 : ¬ s.user_score > s.bot_score := by omega
    have h2 : ¬ s.bot_score > s.user_score := by omega
    simp [GameLogic.determine_game_winner, h1, h2]

/-- Witness for C7 at concrete states: the winner ignores every field but
the scores, and each comparison case is exercised. -/
theorem determine_game_winner_spec_witness :
    GameLogic.determine_game_winner ⟨0, 2, 1, false, false, true, []⟩ =
      GameLogic.determine_game_winner ⟨5, 2, 1, true, true, false, []⟩ ∧
    GameLogic.determine_game_winner ⟨0, 2, 1, false, false, true, []⟩ = "user" ∧
    GameLogic.determine_game_winner ⟨0, 1, 2, false, false, false, []⟩ = "bot" ∧
    GameLogic.determine_game_winner ⟨0, 2, 2, false, false, false, []⟩ = "draw" :=
  ⟨(determine_game_winner_spec ⟨0, 2, 1, false, false, true, []⟩
      ⟨5, 2, 1, true, true, false, []⟩).1 rfl rfl,
   (determine_game_winner_spec ⟨0, 2, 1, false, false, true, []⟩
      ⟨0, 2, 1, false, false, true, []⟩).2.1 (by decide),
   (determine_game_winner_spec ⟨0, 1, 2, false, false, false, []⟩
      ⟨0, 1, 2, false, false, false, []⟩).2.2.1 (by decide),
   (determine_game_winner_spec ⟨0, 2, 2, false, false, false, []⟩
      ⟨0, 2, 2, false, false, false, []⟩).2.2.2 rfl⟩

/-- C6: parsing is invariant under case change and surrounding
whitespace: every legal move name parses to the same move as its
uppercased form and as itself wrapped in spaces. -/
theorem parseMove_case_whitespace_invariant (m : String)
    (h : m ∈ (["rock", "paper", "scissors", "bomb"] : List String)) :
    parseMove m = parseMove (pyUpper m) ∧
    parseMove m = parseMove (" " ++ m ++ " ") ∧
    (parseMove m).isSome = true := by
  fin_cases h <;> exact ⟨by decide, by decide, by decide⟩

/-- Witness for C6 at the move name rock. -/
theorem parseMove_case_whitespace_invariant_witness :
    "rock" ∈ (["rock", "paper", "scissors", "bomb"] : List String) ∧
    (parseMove "rock" = parseMove (pyUpper "rock") ∧
     parseMove "rock" = parseMove (" " ++ "rock" ++ " ") ∧
     (parseMove "rock").isSome = true) :=
  ⟨by decide, parseMove_case_whitespace_invariant "rock" (by decide)⟩

/-- C5: `validate_move` normalises its input (trimming and lowercasing,
in either order, since the two commute) and then parses it against the
four move names; an input that matches none of them fails with the error
message listing the four legal names; and the validation tool never
changes the session state. -/
theorem validate_move_normalizes (move : String) (b : Bool) (s : GameState) :
    (parseMoveStr (pyLower (pyStrip move)) = none →
      GameLogic.validate_move move b =
        (false, none,
          "Invalid move \x27" ++ move ++
            "\x27. Valid moves: rock, paper, scissors, bomb")) ∧
    (∀ mv : Move, parseMoveStr (pyLower (pyStrip move)) = some mv →
      GameLogic.validate_move move b =
        (if mv = Move.bomb && b then
          (false, none, "Bomb has already been used this game")
         else (true, some mv, ""))) ∧
    (validate_move_tool s move).2 = s := by
  refine ⟨?_, ?_, rfl⟩
  · intro h
    unfold GameLogic.validate_move
    rw [parseMove_eq_spec_order, h]
  · intro mv h
    unfold GameLogic.validate_move
    rw [parseMove_eq_spec_order, h]

/-- Witness for C5 at the input string ROCK in spaces. -/
theorem validate_move_normalizes_witness :
    parseMoveStr (pyLower (pyStrip " ROCK ")) = some Move.rock ∧
    GameLogic.validate_move " ROCK " false = (true, some Move.rock, "") ∧
    (validate_move_tool GameState.init " ROCK ").2 = GameState.init := by
  refine ⟨by decide, ?_, (validate_move_normalizes " ROCK " false GameState.init).2.2⟩
  have h := (validate_move_normalizes " ROCK " false GameState.init).2.1 Move.rock (by decide)
  simpa using h

lemma resolve_round_no_invalid_aux (u b : Move) :
    GameLogic.resolve_round u b ≠ some RoundResult.invalid := by
  cases u <;> cases b <;> decide

lemma play_round_tool_step {s : GameState} {m : String} {c : Bool} {i : Nat}
    {s' : GameState} {out : RoundOutcome}
    (h : play_round_tool s m c i = some (s', out)) :
    s'.round_number = s.round_number + 1 ∧
    (s'.game_over = true ↔ (3 ≤ s.round_number + 1 ∨ s.game_over = true)) ∧
    s'.user_score + s'.bot_score + outcomeDraws out + outcomeInvalids out
      = s.user_score + s.bot_score + 1 ∧
    (s.user_bomb_used = true → s'.user_bomb_used = true) ∧
    (s.bot_bomb_used = true → s'.bot_bomb_used = true) := by
  unfold play_round_tool at h
  split at h
  case _ x msg heq =>
    simp only [Option.some.injEq, Prod.mk.injEq] at h
    obtain ⟨hs, ho⟩ := h
    subst hs
    subst ho
    by_cases h3 : s.round_number + 1 ≥ 3
    · simp [h3, outcomeDraws, outcomeInvalids]
    · simp [h3, outcomeDraws, outcomeInvalids]
  case _ msg heq =>
    exact absurd h (by simp)
  case _ user_move_enum msg heq =>
    simp only at h
    rcases hr : GameLogic.resolve_round user_move_enum (bot_choose s.bot_bomb_used c i)
      with _ | r
    · rw [hr] at h
      exact absurd h (by simp)
    · rw [hr] at h
      have hne := resolve_round_no_invalid_aux user_move_enum (bot_choose s.bot_bomb_used c i)
      rw [hr] at hne
      simp only [Option.some.injEq, Prod.mk.injEq] at h
      cases r with
      | invalid => exact absurd rfl hne
      | user_win =>
          obtain ⟨hs, ho⟩ := h
          subst hs
          subst ho
          by_cases h3 : 2 ≤ s.round_number <;>
            refine ⟨?_, ?_, ?_, ?_, ?_⟩ <;>
              simp [h3, outcomeDraws, outcomeInvalids] <;> first | omega | tauto
      | bot_win =>
          obtain ⟨hs, ho⟩ := h
          subst hs
          subst ho
          by_cases h3 : 2 ≤ s.round_number <;>
            refine ⟨?_, ?_, ?_, ?_, ?_⟩ <;>
              simp [h3, outcomeDraws, outcomeInvalids] <;> first | omega | tauto
      | draw =>
          obtain ⟨hs, ho⟩ := h
          subst hs
          subst ho
          by_cases h3 : 2 ≤ s.round_number <;>
            refine ⟨?_, ?_, ?_, ?_, ?_⟩ <;>
              simp [h3, outcomeDraws, outcomeInvalids] <;> first | omega | tauto

lemma run_rounds_props (inputs : List RoundInput) :
    ∀ (s sf : GameState) (outs : List RoundOutcome),
      run_rounds s inputs = some (sf, outs) →
      sf.round_number = s.round_number + inputs.length ∧
      sf.user_score + sf.bot_score + drawCount outs + invalidCount outs
        = s.user_score + s.bot_score + inputs.length ∧
      (sf.game_over = true ↔
        (s.game_over = true ∨ (1 ≤ inputs.length ∧ 3 ≤ s.round_number + inputs.length))) ∧
      (s.user_bomb_used = true → sf.user_bomb_used = true) ∧
      (s.bot_bomb_used = true → sf.bot_bomb_used = true) := by
  induction inputs with
  | nil =>
      intro s sf outs h
      simp only [run_rounds, Option.some.injEq, Prod.mk.injEq] at h
      obtain ⟨hs, ho⟩ := h
      subst hs
      subst ho
      simp [drawCount, invalidCount]
  | cons p rest ih =>
      obtain ⟨m, c, i⟩ := p
      intro s sf outs h
      simp only [run_rounds] at h
      rcases hp : play_round_tool s m c i with _ | sp
      · rw [hp] at h
        simp at h
      · obtain ⟨s1, o⟩ := sp
        rw [hp] at h
        dsimp only at h
        rcases hr : run_rounds s1 rest with _ | sr
        · rw [hr] at h
          simp at h
        · obtain ⟨s2, outs2⟩ := sr
          rw [hr] at h
          simp only [Option.some.injEq, Prod.mk.injEq] at h
          obtain ⟨hs2, ho2⟩ := h
          subst hs2
          subst ho2
          obtain ⟨hrn, hgo, hsum, hu, hb⟩ := play_round_tool_step hp
          obtain ⟨hrn2, hsum2, hgo2, hu2, hb2⟩ := ih _ _ _ hr
          refine ⟨by simp [List.length_cons]; omega, ?_, ?_,
            fun hx => hu2 (hu hx), fun hx => hb2 (hb hx)⟩
          · simp only [drawCount, invalidCount, List.length_cons]
            omega
          · rw [hgo2, hgo, hrn]
            simp only [List.length_cons]
            cases hsgo : s.game_over <;> (simp; try omega)

/-- C2: on an invalid user input (unknown move name, or BOMB with the
user bomb flag already set), `play_round_tool` increments the round
number by exactly 1, sets `game_over` when the round number reaches the
limit of 3, and returns the INVALID outcome carrying the error message,
while scores, both bomb flags and the history are unchanged and no
opponent move is selected (the INVALID outcome has none). -/
theorem play_round_invalid_effects (s : GameState) (m : String) (c : Bool) (i : Nat)
    (h : (GameLogic.validate_move m s.user_bomb_used).1 = false) :
    play_round_tool s m c i = some
      (⟨s.round_number + 1, s.user_score, s.bot_score, s.user_bomb_used, s.bot_bomb_used,
        (if s.round_number + 1 ≥ 3 then true else s.game_over), s.rounds_history⟩,
       RoundOutcome.invalid (s.round_number + 1)
         (GameLogic.validate_move m s.user_bomb_used).2.2 m s.user_score s.bot_score
         (if s.round_number + 1 ≥ 3 then true else s.game_over)) := by
  rcases hv : GameLogic.validate_move m s.user_bomb_used with ⟨v, mv, msg⟩
  rw [hv] at h
  simp at h
  subst h
  simp only [play_round_tool, hv]
  by_cases h3 : s.round_number + 1 ≥ 3
  · simp [h3]
  · simp [h3]

/-- Witness for C2: the unknown move banana on a fresh session wastes
round 1 without touching anything else. -/
theorem play_round_invalid_effects_witness :
    (GameLogic.validate_move "banana" GameState.init.user_bomb_used).1 = false ∧
    play_round_tool GameState.init "banana" false 0 = some
      (⟨1, 0, 0, false, false, false, []⟩,
       RoundOutcome.invalid 1
         (GameLogic.validate_move "banana" GameState.init.user_bomb_used).2.2
         "banana" 0 0 false) :=
  ⟨by decide, play_round_invalid_effects GameState.init "banana" false 0 (by decide)⟩

/-- C3 (amended): after any sequence of `play_round_tool` calls from a
fresh session, `userScore + botScore + drawCount + invalidCount` equals
`roundNumber`, and `roundNumber` equals the number of calls; hence
`roundNumber ≤ 3` holds as long as at most 3 calls are made (the tool
itself never rejects a call on a finished session). -/
theorem session_invariant_amended (inputs : List RoundInput) (sf : GameState)
    (outs : List RoundOutcome)
    (h : run_rounds GameState.init inputs = some (sf, outs)) :
    sf.user_score + sf.bot_score + drawCount outs + invalidCount outs = sf.round_number ∧
    sf.round_number = inputs.length ∧
    (inputs.length ≤ 3 → sf.round_number ≤ 3) := by
  obtain ⟨hrn, hsum, hgo, hu, hb⟩ := run_rounds_props inputs GameState.init sf outs h
  simp [GameState.init] at hrn hsum
  exact ⟨by omega, by omega, by omega⟩

/-- Witness for C3 at one invalid round. -/
theorem session_invariant_amended_witness :
    run_rounds GameState.init [("banana", false, 0)] =
      some (⟨1, 0, 0, false, false, false, []⟩,
        [RoundOutcome.invalid 1
          "Invalid move \x27banana\x27. Valid moves: rock, paper, scissors, bomb"
          "banana" 0 0 false]) ∧
    (0 + 0 +
        drawCount [RoundOutcome.invalid 1
          "Invalid move \x27banana\x27. Valid moves: rock, paper, scissors, bomb"
          "banana" 0 0 false] +
        invalidCount [RoundOutcome.invalid 1
          "Invalid move \x27banana\x27. Valid moves: rock, paper, scissors, bomb"
          "banana" 0 0 false] = 1 ∧
      (1 : Nat) = 1 ∧ ((1 : Nat) ≤ 3 → (1 : Nat) ≤ 3)) :=
  ⟨by decide, session_invariant_amended [("banana", false, 0)]
    ⟨1, 0, 0, false, false, false, []⟩
    [RoundOutcome.invalid 1
      "Invalid move \x27banana\x27. Valid moves: rock, paper, scissors, bomb"
      "banana" 0 0 false] (by decide)⟩

/-- Counterexample to C3 as stated: `play_round_tool` accepts calls on a
finished session, so four invalid rounds from a fresh session drive
`round_number` to 4, beyond the claimed limit of 3. -/
theorem session_round_limit_counterexample :
    (run_rounds GameState.init
        [("banana", false, 0), ("banana", false, 0),
         ("banana", false, 0), ("banana", false, 0)]).map Prod.fst =
      some ⟨4, 0, 0, false, false, true, []⟩ ∧
    ¬ ((4 : Nat) ≤ 3) :=
  ⟨by decide, by decide⟩

/-- C4: one `play_round_tool` call never clears a bomb flag that is set
(so each flag goes from false to true at most once and never back), and
with the user flag set, validating the input bomb fails with the
bomb-already-used error. -/
theorem bomb_flags_irreversible (s : GameState) (m : String) (c : Bool) (i : Nat)
    (s' : GameState) (out : RoundOutcome)
    (h : play_round_tool s m c i = some (s', out)) :
    (s.user_bomb_used = true → s'.user_bomb_used = true) ∧
    (s.bot_bomb_used = true → s'.bot_bomb_used = true) ∧
    (s.user_bomb_used = true →
      GameLogic.validate_move "bomb" s.user_bomb_used =
        (false, none, "Bomb has already been used this game")) := by
  obtain ⟨-, -, -, hu, hb⟩ := play_round_tool_step h
  refine ⟨hu, hb, ?_⟩
  intro hx
  rw [hx]
  decide

/-- Witness for C4: a session with both bomb flags set keeps them set
through a further round. -/
theorem bomb_flags_irreversible_witness :
    play_round_tool ⟨0, 0, 0, true, true, false, []⟩ "banana" false 0 =
      some (⟨1, 0, 0, true, true, false, []⟩,
        RoundOutcome.invalid 1
          "Invalid move \x27banana\x27. Valid moves: rock, paper, scissors, bomb"
          "banana" 0 0 false) ∧
    ((true = true → true = true) ∧
     (true = true → true = true) ∧
     (true = true →
       GameLogic.validate_move "bomb" true =
         (false, none, "Bomb has already been used this game"))) :=
  ⟨by decide,
   bomb_flags_irreversible ⟨0, 0, 0, true, true, false, []⟩ "banana" false 0
     ⟨1, 0, 0, true, true, false, []⟩
     (RoundOutcome.invalid 1
       "Invalid move \x27banana\x27. Valid moves: rock, paper, scissors, bomb"
       "banana" 0 0 false) (by decide)⟩

/-- C8: after any sequence of rounds, resetting yields a session whose
counters are 0, whose flags are false and whose history is empty. -/
theorem reset_yields_fresh_session (inputs : List RoundInput) (sf : GameState)
    (outs : List RoundOutcome)
    (_h : run_rounds GameState.init inputs = some (sf, outs)) :
    (reset_game_tool sf).2.round_number = 0 ∧
    (reset_game_tool sf).2.user_score = 0 ∧
    (reset_game_tool sf).2.bot_score = 0 ∧
    (reset_game_tool sf).2.user_bomb_used = false ∧
    (reset_game_tool sf).2.bot_bomb_used = false ∧
    (reset_game_tool sf).2.game_over = false ∧
    (reset_game_tool sf).2.rounds_history = [] :=
  ⟨rfl, rfl, rfl, rfl, rfl, rfl, rfl⟩

/-- Witness for C8 after one played round. -/
theorem reset_yields_fresh_session_witness :
    run_rounds GameState.init [("rock", false, 0)] =
      some (⟨1, 0, 0, false, false, false, [⟨1, Move.rock, Move.rock, RoundResult.draw⟩]⟩,
        [RoundOutcome.played 1 RoundResult.draw Move.rock Move.rock 0 0 false false false]) ∧
    ((reset_game_tool ⟨1, 0, 0, false, false, false,
        [⟨1, Move.rock, Move.rock, RoundResult.draw⟩]⟩).2.round_number = 0 ∧
     (reset_game_tool ⟨1, 0, 0, false, false, false,
        [⟨1, Move.rock, Move.rock, RoundResult.draw⟩]⟩).2.user_score = 0 ∧
     (reset_game_tool ⟨1, 0, 0, false, false, false,
        [⟨1, Move.rock, Move.rock, RoundResult.draw⟩]⟩).2.bot_score = 0 ∧
     (reset_game_tool ⟨1, 0, 0, false, false, false,
        [⟨1, Move.rock, Move.rock, RoundResult.draw⟩]⟩).2.user_bomb_used = false ∧
     (reset_game_tool ⟨1, 0, 0, false, false, false,
        [⟨1, Move.rock, Move.rock, RoundResult.draw⟩]⟩).2.bot_bomb_used = false ∧
     (reset_game_tool ⟨1, 0, 0, false, false, false,
        [⟨1, Move.rock, Move.rock, RoundResult.draw⟩]⟩).2.game_over = false ∧
     (reset_game_tool ⟨1, 0, 0, false, false, false,
        [⟨1, Move.rock, Move.rock, RoundResult.draw⟩]⟩).2.rounds_history = []) :=
  ⟨by decide,
   reset_yields_fresh_session [("rock", false, 0)]
     ⟨1, 0, 0, false, false, false, [⟨1, Move.rock, Move.rock, RoundResult.draw⟩]⟩
     [RoundOutcome.played 1 RoundResult.draw Move.rock Move.rock 0 0 false false false]
     (by decide)⟩

/-- C9: along any sequence of `play_round_tool` calls from a fresh
session, `game_over` is true exactly once the round number (which equals
the number of calls) has reached 3 — so it becomes true at the third
call and no later call clears it — and only a reset yields a session
with `game_over` false again. -/
theorem game_over_exactly_at_limit (inputs : List RoundInput) (sf : GameState)
    (outs : List RoundOutcome)
    (h : run_rounds GameState.init inputs = some (sf, outs)) :
    sf.round_number = inputs.length ∧
    (sf.game_over = true ↔ 3 ≤ sf.round_number) ∧
    (reset_game_tool sf).2.game_over = false := by
  obtain ⟨hrn, hsum, hgo, hu, hb⟩ := run_rounds_props inputs GameState.init sf outs h
  simp [GameState.init] at hrn hgo
  refine ⟨hrn, ?_, rfl⟩
  rw [hgo, hrn]
  omega

/-- Witness for C9: three invalid rounds reach the limit and set
game_over exactly then. -/
theorem game_over_exactly_at_limit_witness :
    run_rounds GameState.init
        [("banana", false, 0), ("banana", false, 0), ("banana", false, 0)] =
      some (⟨3, 0, 0, false, false, true, []⟩,
        [RoundOutcome.invalid 1
           "Invalid move \x27banana\x27. Valid moves: rock, paper, scissors, bomb"
           "banana" 0 0 false,
         RoundOutcome.invalid 2
           "Invalid move \x27banana\x27. Valid moves: rock, paper, scissors, bomb"
           "banana" 0 0 false,
         RoundOutcome.invalid 3
           "Invalid move \x27banana\x27. Valid moves: rock, paper, scissors, bomb"
           "banana" 0 0 true]) ∧
    ((3 : Nat) = 3 ∧ (true = true ↔ (3 : Nat) ≤ 3) ∧
      (reset_game_tool ⟨3, 0, 0, false, false, true, []⟩).2.game_over = false) :=
  ⟨by decide,
   game_over_exactly_at_limit
     [("banana", false, 0), ("banana", false, 0), ("banana", false, 0)]
     ⟨3, 0, 0, false, false, true, []⟩
     [RoundOutcome.invalid 1
        "Invalid move \x27banana\x27. Valid moves: rock, paper, scissors, bomb"
        "banana" 0 0 false,
      RoundOutcome.invalid 2
        "Invalid move \x27banana\x27. Valid moves: rock, paper, scissors, bomb"
        "banana" 0 0 false,
      RoundOutcome.invalid 3
        "Invalid move \x27banana\x27. Valid moves: rock, paper, scissors, bomb"
        "banana" 0 0 true] (by decide)⟩
